import Mathlib

/-!
Shallow embedding of the FIRE Strategy Analyzer core engine
(`src/fire.py`): deterministic projection, required nest egg,
three bridge-strategy evaluations and the Monte Carlo simulator.

Python floats are modelled as rationals (ℚ).  Python's raising
division (`ZeroDivisionError` on a zero denominator) is modelled by
`pydiv`, which returns `none` on a zero denominator; consequently any
function whose Python body can raise returns an `Option`.
-/

/-- Python division: raises (`none`) when the denominator is zero. -/
def pydiv (a b : ℚ) : Option ℚ :=
  if b = 0 then none else some (a / b)

/-- Account balances, one field per account category of the source's
`balances` dictionary. -/
structure Balances where
  traditional_401k : ℚ
  traditional_ira : ℚ
  roth_ira : ℚ
  hsa : ℚ
  taxable_investments : ℚ
  cash_emergency : ℚ
deriving DecidableEq

/-- Sum of all current balances (`sum(inputs["balances"].values())`). -/
def Balances.total (b : Balances) : ℚ :=
  b.traditional_401k + b.traditional_ira + b.roth_ira + b.hsa +
    b.taxable_investments + b.cash_emergency

/-- Annual contributions, one field per category of the source's
`contributions` dictionary. -/
structure Contributions where
  pre_tax_401k : ℚ
  roth_401k : ℚ
  roth_ira : ℚ
  hsa : ℚ
  taxable_investments : ℚ
  cash_savings : ℚ
  employer_match : ℚ
deriving DecidableEq

/-- Sum of all annual contributions (`sum(inputs["contributions"].values())`). -/
def Contributions.total (c : Contributions) : ℚ :=
  c.pre_tax_401k + c.roth_401k + c.roth_ira + c.hsa +
    c.taxable_investments + c.cash_savings + c.employer_match

/-- The `inputs` record consumed by every engine function. -/
structure Inputs where
  current_age : ℤ
  target_retire_age : ℤ
  desired_retirement_expenses : ℚ
  inflation_rate : ℚ
  balances : Balances
  contributions : Contributions
  real_return : ℚ
  safe_withdrawal_rate : ℚ
  taxable_bridge_years_required : ℕ
  safety_margin : ℚ
deriving DecidableEq

/-- `years_until(target, current) = max(0, target - current)`. -/
def years_until (target current : ℤ) : ℕ :=
  (target - current).toNat

/-- `grow_balance(balance, years, r) = balance * (1+r)**years`. -/
def grow_balance (balance : ℚ) (years : ℕ) (r : ℚ) : ℚ :=
  balance * (1 + r) ^ years

/-- `fv_annuity(contrib, years, r)`: returns 0 when `years <= 0`, else
`contrib * (((1+r)**years - 1) / r)` — the division by `r` is the
source's raising division, so a zero rate with positive years is `none`. -/
def fv_annuity (contrib : ℚ) (years : ℕ) (r : ℚ) : Option ℚ :=
  if years = 0 then some 0
  else (pydiv ((1 + r) ^ years - 1) r).map (fun q => contrib * q)

/-- Result record of `project`. -/
structure ProjectRes where
  years : ℕ
  total_now : ℚ
  nest_egg : ℚ
  annual_contrib : ℚ
deriving DecidableEq

/-- `project(inputs)`: grows the current balances over the horizon and
adds the annuity future value of the contribution stream. -/
def project (inputs : Inputs) : Option ProjectRes :=
  let yrs := years_until inputs.target_retire_age inputs.current_age
  let total_now := inputs.balances.total
  let grown_now := grow_balance total_now yrs inputs.real_return
  let annual_contrib := inputs.contributions.total
  (fv_annuity annual_contrib yrs inputs.real_return).map fun fv_contribs =>
    ⟨yrs, total_now, grown_now + fv_contribs, annual_contrib⟩

/-- Result record of `required`. -/
structure RequiredRes where
  spend_at_ret : ℚ
  required : ℚ
deriving DecidableEq

/-- `required(inputs)`: inflates desired expenses to the retirement date
and divides by the safe withdrawal rate (raising division). -/
def required (inputs : Inputs) : Option RequiredRes :=
  let yrs := years_until inputs.target_retire_age inputs.current_age
  let spend := inputs.desired_retirement_expenses *
    (1 + inputs.inflation_rate) ^ yrs
  (pydiv spend inputs.safe_withdrawal_rate).map fun req => ⟨spend, req⟩

/-- The two-valued strategy status. -/
inductive Status where
  | OK : Status
  | SHORT : Status
deriving DecidableEq

/-- Row record returned by the dictionary-returning strategy functions
(`roth_ladder`, `sepp_72t`, `taxable_first`). -/
structure StratRow where
  coverage : ℚ
  years_covered : ℚ
  status : Status
deriving DecidableEq

/-- `roth_ladder(inputs)`: clamped coverage (`min(1, avail/need)` when
`need > 0`, else 1), years covered, status from the unclamped comparison. -/
def roth_ladder (inputs : Inputs) : Option StratRow :=
  (required inputs).map fun r =>
    let spend := r.spend_at_ret
    let need := spend * (inputs.taxable_bridge_years_required : ℚ)
    let avail := inputs.balances.taxable_investments +
      inputs.balances.cash_emergency
    let pct_covered := if need > 0 then min 1 (avail / need) else 1
    ⟨pct_covered, if spend > 0 then avail / spend else 0,
      if avail ≥ need then Status.OK else Status.SHORT⟩

/-- `sepp_72t(inputs)`: withdraws 4% of the pre-tax total, clamped
coverage, years covered scaled by 30, status from the unclamped comparison. -/
def sepp_72t (inputs : Inputs) : Option StratRow :=
  (required inputs).map fun r =>
    let pre_tax_total := inputs.balances.traditional_401k +
      inputs.balances.traditional_ira
    let annual_withdraw := (4 / 100 : ℚ) * pre_tax_total
    let spend := r.spend_at_ret
    let pct_covered :=
      if spend > 0 then min 1 (annual_withdraw / spend) else 0
    ⟨pct_covered,
      if spend > 0 then (annual_withdraw / spend) * 30 else 0,
      if annual_withdraw ≥ spend then Status.OK else Status.SHORT⟩

/-- `taxable_first(inputs)`: years covered from the taxable total,
coverage clamped at a 5-year bridge, status from the unclamped years. -/
def taxable_first (inputs : Inputs) : Option StratRow :=
  (required inputs).map fun r =>
    let taxable_total := inputs.balances.taxable_investments +
      inputs.balances.cash_emergency
    let spend := r.spend_at_ret
    let years_covered := if spend > 0 then taxable_total / spend else 0
    ⟨min 1 (years_covered / 5), years_covered,
      if years_covered ≥ 5 then Status.OK else Status.SHORT⟩

/-- `strategy_roth_ladder(inputs)`: returns `(coverage, years, status)`;
coverage is `avail/need` when `need > 0`, else 0 (unlike `roth_ladder`). -/
def strategy_roth_ladder (inputs : Inputs) : Option (ℚ × ℚ × Status) :=
  (required inputs).map fun r =>
    let spend := r.spend_at_ret
    let need := spend * (inputs.taxable_bridge_years_required : ℚ)
    let avail := inputs.balances.taxable_investments +
      inputs.balances.cash_emergency
    let coverage := if need > 0 then avail / need else 0
    let years := if spend > 0 then avail / spend else 0
    (coverage, years, if avail ≥ need then Status.OK else Status.SHORT)

/-- `strategy_sepp(inputs)`: SEPP income is `balance / 30`; its coverage
division by `spend` is unguarded in the source, hence the raising `pydiv`. -/
def strategy_sepp (inputs : Inputs) : Option (ℚ × ℚ × Status) :=
  (required inputs).bind fun r =>
    let spend := r.spend_at_ret
    let balance := inputs.balances.traditional_401k +
      inputs.balances.traditional_ira
    let sepp_income := balance / 30
    (pydiv sepp_income spend).map fun coverage =>
      (coverage, if spend > 0 then balance / spend else 0,
        if sepp_income ≥ spend then Status.OK else Status.SHORT)

/-- `strategy_taxable_drawdown(inputs)`: coverage and years are both
`avail/spend` (guarded), status OK when the years cover a 5-year bridge. -/
def strategy_taxable_drawdown (inputs : Inputs) : Option (ℚ × ℚ × Status) :=
  (required inputs).map fun r =>
    let spend := r.spend_at_ret
    let avail := inputs.balances.taxable_investments +
      inputs.balances.cash_emergency
    let coverage := if spend > 0 then avail / spend else 0
    let years := if spend > 0 then avail / spend else 0
    (coverage, years, if years ≥ 5 then Status.OK else Status.SHORT)

/-- One Monte Carlo trial's inner loop: with `fuel` years left at year
index `yr`, apply the drawn return, subtract the annual spend, fail as
soon as the balance drops to zero or below. -/
def trial_survives (spend : ℚ) (draw : ℕ → ℚ) : ℕ → ℕ → ℚ → Bool
  | 0, _, _ => true
  | fuel + 1, yr, bal =>
    let bal2 := bal * (1 + draw yr) - spend
    if bal2 ≤ 0 then false else trial_survives spend draw fuel (yr + 1) bal2

/-- `monte_carlo(inputs, trials, horizon)`: counts surviving trials and
divides by `trials`.  The ambient random generator is modelled by
`draws`, giving the normal sample for trial `i`, year `yr`. -/
def monte_carlo (inputs : Inputs) (draws : ℕ → ℕ → ℚ)
    (trials horizon : ℕ) : Option ℚ :=
  (project inputs).bind fun p =>
    (required inputs).bind fun r =>
      let start := p.nest_egg
      let annual_spend := r.spend_at_ret
      let success := (List.range trials).countP fun i =>
        trial_survives annual_spend (draws i) horizon 0 start
      pydiv (success : ℚ) (trials : ℚ)

/-- All-zero balances. -/
def noBalances : Balances := ⟨0, 0, 0, 0, 0, 0⟩

/-- All-zero contributions. -/
def noContributions : Contributions := ⟨0, 0, 0, 0, 0, 0, 0⟩

/-- Input with `desired_retirement_expenses = 0` over a zero-year horizon,
so `spend_at_retirement = 0`; the safe withdrawal rate is 1. -/
def inputsC1 : Inputs := ⟨50, 50, 0, 0, noBalances, noContributions, 0, 1, 3, 9/10⟩

/-- Input with `taxable_bridge_years_required = 0` and positive spend
(`spend_at_retirement = 1`), with 7 of taxable funds available. -/
def inputsC3 : Inputs := ⟨50, 50, 1, 0, ⟨0, 0, 0, 0, 7, 0⟩, noContributions, 0, 1, 0, 9/10⟩

/-- Input whose available funds far exceed every strategy's need:
spend 1, bridge 1 year, taxable 10, pre-tax 60. -/
def inputsC4 : Inputs := ⟨50, 50, 1, 0, ⟨60, 0, 0, 0, 10, 0⟩, noContributions, 0, 1, 1, 9/10⟩

/-- Input with pre-tax balance 60 and `spend_at_retirement = 1`. -/
def inputsC5w : Inputs := ⟨50, 50, 1, 0, ⟨60, 0, 0, 0, 0, 0⟩, noContributions, 0, 1, 3, 9/10⟩

/-- Input with `safe_withdrawal_rate = 0` (everything else benign). -/
def inputsC6bad : Inputs := ⟨50, 50, 1, 0, noBalances, noContributions, 0, 0, 3, 9/10⟩

/-- Input with a positive safe withdrawal rate and a zero-year horizon. -/
def inputsC6w : Inputs := ⟨50, 50, 1, 0, noBalances, noContributions, 1/20, 1/25, 3, 9/10⟩

/-- Input with `safe_withdrawal_rate = 0`. -/
def inputsC7a : Inputs := ⟨50, 50, 1, 0, noBalances, noContributions, 0, 0, 3, 9/10⟩

/-- Input with `safe_withdrawal_rate = 1/2` and spend 1. -/
def inputsC7b : Inputs := ⟨50, 50, 1, 0, noBalances, noContributions, 0, 1/2, 3, 9/10⟩

/-- Input with taxable funds 7 and `spend_at_retirement = 1`. -/
def inputsC9w : Inputs := ⟨50, 50, 1, 0, ⟨0, 0, 0, 0, 7, 0⟩, noContributions, 0, 1, 1, 9/10⟩

/-- Input with `target_retire_age < current_age`, balances summing to 21
and contributions summing to 5. -/
def inputsC10w : Inputs := ⟨50, 40, 0, 0, ⟨1, 2, 3, 4, 5, 6⟩, ⟨5, 0, 0, 0, 0, 0, 0⟩, 1/20, 1/25, 3, 9/10⟩

/-- A zero-length horizon yields zero years until retirement. -/
theorem years_until_self (a : ℤ) : years_until a a = 0 := by
  simp [years_until]

/-- If the rate is nonzero or the horizon is zero, `fv_annuity` is defined. -/
theorem fv_annuity_isSome (c : ℚ) (y : ℕ) (r : ℚ)
    (h : r ≠ 0 ∨ y = 0) : (fv_annuity c y r).isSome := by
  rcases h with h | h
  · rcases Nat.eq_zero_or_pos y with hy | hy
    · simp [fv_annuity, hy]
    · simp [fv_annuity, pydiv, h, Nat.pos_iff_ne_zero.mp hy]
  · simp [fv_annuity, h]

/-- Claim C1: at an input whose `spend_at_retirement` is 0, the Roth
Conversion Ladder and Taxable Drawdown First evaluations return the
defined fallback values (coverage 0, years 0), but the 72(t) SEPP
evaluation raises a division by zero (modelled as `none`) because its
coverage division by `spend` is unguarded — refuting "never raises". -/
theorem c1_spend_zero_sepp_raises :
    strategy_sepp inputsC1 = none ∧
    strategy_roth_ladder inputsC1 = some (0, 0, Status.OK) ∧
    strategy_taxable_drawdown inputsC1 = some (0, 0, Status.SHORT) := by
  have hreq : required inputsC1 = some ⟨0, 0⟩ := by
    norm_num [required, pydiv, inputsC1, years_until_self]
  refine ⟨?_, ?_, ?_⟩
  · unfold strategy_sepp
    rw [hreq]
    norm_num [pydiv]
  · unfold strategy_roth_ladder
    rw [hreq]
    norm_num [inputsC1, noBalances]
  · unfold strategy_taxable_drawdown
    rw [hreq]
    norm_num [inputsC1, noBalances]

/-- Claim C2: the annuity future value at rate 0 with one year of
contributions raises a division by zero (modelled as `none`) instead of
returning `c * n = 100`, because the naive formula divides by the rate. -/
theorem c2_fv_annuity_zero_rate_raises :
    fv_annuity 100 1 0 = none ∧ fv_annuity 100 1 0 ≠ some (100 * 1) := by
  have h : fv_annuity 100 1 0 = none := by norm_num [fv_annuity, pydiv]
  refine ⟨h, ?_⟩
  rw [h]
  exact fun hc => Option.noConfusion hc

/-- Claim C3: at an input with `taxable_bridge_years_required = 0` (need
0) and positive spend, the displayed `strategy_roth_ladder` reports
coverage 0 — not 1 as claimed — while the duplicate `roth_ladder` in the
same file reports coverage 1; the OK status holds in both. -/
theorem c3_need_zero_coverage_divergent :
    strategy_roth_ladder inputsC3 = some (0, 7, Status.OK) ∧
    roth_ladder inputsC3 = some ⟨1, 7, Status.OK⟩ := by
  have hreq : required inputsC3 = some ⟨1, 1⟩ := by
    norm_num [required, pydiv, inputsC3, years_until_self]
  refine ⟨?_, ?_⟩
  · unfold strategy_roth_ladder
    rw [hreq]
    norm_num [inputsC3]
  · unfold roth_ladder
    rw [hreq]
    norm_num [inputsC3]

/-- Claim C4: at an input whose available funds exceed every need, all
three displayed strategy evaluations report coverage fractions strictly
greater than 1 (10, 2 and 10), refuting "always in [0, 1]". -/
theorem c4_coverage_exceeds_one :
    strategy_roth_ladder inputsC4 = some (10, 10, Status.OK) ∧
    strategy_sepp inputsC4 = some (2, 60, Status.OK) ∧
    strategy_taxable_drawdown inputsC4 = some (10, 10, Status.OK) ∧
    (1 : ℚ) < 10 ∧ (1 : ℚ) < 2 := by
  have hreq : required inputsC4 = some ⟨1, 1⟩ := by
    norm_num [required, pydiv, inputsC4, years_until_self]
  refine ⟨?_, ?_, ?_, by norm_num, by norm_num⟩
  · unfold strategy_roth_ladder
    rw [hreq]
    norm_num [inputsC4]
  · unfold strategy_sepp
    rw [hreq]
    norm_num [pydiv, inputsC4]
  · unfold strategy_taxable_drawdown
    rw [hreq]
    norm_num [inputsC4]

/-- Claim C5: when `spend_at_retirement > 0`, the 72(t) SEPP strategy
reports coverage `(balance/30)/spend`, years `balance/spend`, and status
OK exactly when `balance/30 ≥ spend`, with
`balance = traditional_401k + traditional_ira`. -/
theorem c5_sepp_formulas (inputs : Inputs) (r : RequiredRes)
    (hreq : required inputs = some r) (hspend : 0 < r.spend_at_ret) :
    strategy_sepp inputs = some
      ((inputs.balances.traditional_401k + inputs.balances.traditional_ira)
          / 30 / r.spend_at_ret,
        (inputs.balances.traditional_401k + inputs.balances.traditional_ira)
          / r.spend_at_ret,
        if (inputs.balances.traditional_401k + inputs.balances.traditional_ira)
            / 30 ≥ r.spend_at_ret then Status.OK else Status.SHORT) := by
  simp [strategy_sepp, hreq, pydiv, hspend, hspend.ne']

/-- Claim C5 witness: concrete input with balance 60, spend 1. -/
theorem c5_sepp_formulas_witness :
    strategy_sepp inputsC5w = some (2, 60, Status.OK) := by
  rw [c5_sepp_formulas inputsC5w ⟨1, 1⟩
    (by norm_num [required, pydiv, inputsC5w, years_until_self]) (by norm_num)]
  norm_num [inputsC5w]

/-- Claim C6, counterexample: at an input with `safe_withdrawal_rate = 0`,
`monte_carlo` with trials 1 and horizon 0 raises a division by zero
inside `required` (modelled as `none`) rather than returning 1. -/
theorem c6_swr_zero_mc_raises :
    monte_carlo inputsC6bad (fun _ _ => 0) 1 0 = none ∧
    monte_carlo inputsC6bad (fun _ _ => 0) 1 0 ≠ some 1 := by
  have h : monte_carlo inputsC6bad (fun _ _ => 0) 1 0 = none := by
    norm_num [monte_carlo, project, required, fv_annuity, pydiv,
      inputsC6bad, years_until_self]
  exact ⟨h, by simp [h]⟩

/-- Claim C6, amended: for every input on which the prerequisite
computations are defined (nonzero safe withdrawal rate, and nonzero real
return or a zero-year savings horizon), the Monte Carlo simulation with
trials 1 and horizon 0 returns exactly 1, for every draw function. -/
theorem c6_zero_horizon_survives (inputs : Inputs) (draws : ℕ → ℕ → ℚ)
    (hswr : inputs.safe_withdrawal_rate ≠ 0)
    (hr : inputs.real_return ≠ 0 ∨
      years_until inputs.target_retire_age inputs.current_age = 0) :
    monte_carlo inputs draws 1 0 = some 1 := by
  have hfv := fv_annuity_isSome inputs.contributions.total
    (years_until inputs.target_retire_age inputs.current_age)
    inputs.real_return hr
  obtain ⟨fv, hfveq⟩ := Option.isSome_iff_exists.mp hfv
  simp [monte_carlo, project, required, pydiv, hswr, hfveq,
    trial_survives, List.range_succ]

/-- Claim C6 witness: concrete benign input, all-zero draws. -/
theorem c6_zero_horizon_survives_witness :
    monte_carlo inputsC6w (fun _ _ => 0) 1 0 = some 1 :=
  c6_zero_horizon_survives inputsC6w (fun _ _ => 0)
    (by norm_num [inputsC6w])
    (Or.inr (by norm_num [inputsC6w, years_until_self]))

/-- Claim C7: `required` raises a division by zero (modelled as `none`)
when the safe withdrawal rate is 0, and for a strictly positive rate it
returns the inflated spend and `spend / safe_withdrawal_rate`. -/
theorem c7_required_swr (inputs : Inputs) :
    (inputs.safe_withdrawal_rate = 0 → required inputs = none) ∧
    (0 < inputs.safe_withdrawal_rate → required inputs = some
      ⟨inputs.desired_retirement_expenses *
          (1 + inputs.inflation_rate) ^
            years_until inputs.target_retire_age inputs.current_age,
        inputs.desired_retirement_expenses *
            (1 + inputs.inflation_rate) ^
              years_until inputs.target_retire_age inputs.current_age /
          inputs.safe_withdrawal_rate⟩) := by
  constructor
  · intro h
    simp [required, pydiv, h]
  · intro h
    simp [required, pydiv, h.ne']

/-- Claim C7 witness: rate 0 raises; rate 1/2 gives spend 1, required 2. -/
theorem c7_required_swr_witness :
    required inputsC7a = none ∧ required inputsC7b = some ⟨1, 2⟩ := by
  constructor
  · exact (c7_required_swr inputsC7a).1 (by norm_num [inputsC7a])
  · rw [(c7_required_swr inputsC7b).2 (by norm_num [inputsC7b])]
    norm_num [inputsC7b, years_until_self]

/-- Claim C8, counterexample: for the negative balance -1 with one year
at the admissible rate 1, `grow_balance` shrinks the balance (to -2), so
the claim fails for arbitrary balances. -/
theorem c8_negative_balance_shrinks :
    ¬ ((-1 : ℚ) ≤ grow_balance (-1) 1 1) ∧ (0 : ℚ) ≤ 1 := by
  constructor <;> norm_num [grow_balance]

/-- Claim C8, amended: for every non-negative balance, every year count
and every non-negative rate, `grow_balance` does not shrink the balance;
and over zero years it is the identity for all balances and rates. -/
theorem c8_grow_monotone (b r : ℚ) (years : ℕ) :
    (0 ≤ b → 0 ≤ r → b ≤ grow_balance b years r) ∧
    grow_balance b 0 r = b := by
  constructor
  · intro hb hr
    have h1 : (1 : ℚ) ≤ (1 + r) ^ years := one_le_pow₀ (by linarith)
    calc b = b * 1 := (mul_one b).symm
      _ ≤ b * (1 + r) ^ years := mul_le_mul_of_nonneg_left h1 hb
      _ = grow_balance b years r := rfl
  · simp [grow_balance]

/-- Claim C8 witness: balance 2 over 3 years at rate 1 grows to 16 ≥ 2,
and over 0 years stays 2. -/
theorem c8_grow_monotone_witness :
    (2 : ℚ) ≤ grow_balance 2 3 1 ∧ grow_balance 2 0 1 = 2 :=
  ⟨(c8_grow_monotone 2 1 3).1 (by norm_num) (by norm_num),
    (c8_grow_monotone 2 1 3).2⟩

/-- Claim C9: when `spend_at_retirement > 0`, the years-covered value of
the Roth Conversion Ladder evaluation equals that of the Taxable
Drawdown First evaluation: both are
`(taxable_investments + cash_emergency) / spend_at_retirement`. -/
theorem c9_years_covered_agree (inputs : Inputs) (r : RequiredRes)
    (hreq : required inputs = some r) (hspend : 0 < r.spend_at_ret) :
    (strategy_roth_ladder inputs).map (fun t => t.2.1) =
      some ((inputs.balances.taxable_investments +
        inputs.balances.cash_emergency) / r.spend_at_ret) ∧
    (strategy_taxable_drawdown inputs).map (fun t => t.2.1) =
      some ((inputs.balances.taxable_investments +
        inputs.balances.cash_emergency) / r.spend_at_ret) := by
  constructor <;>
    simp [strategy_roth_ladder, strategy_taxable_drawdown, hreq, hspend]

/-- Claim C9 witness: taxable funds 7, spend 1 — both report 7 years. -/
theorem c9_years_covered_agree_witness :
    (strategy_roth_ladder inputsC9w).map (fun t => t.2.1) = some 7 ∧
    (strategy_taxable_drawdown inputsC9w).map (fun t => t.2.1) = some 7 := by
  have h := c9_years_covered_agree inputsC9w ⟨1, 1⟩
    (by norm_num [required, pydiv, inputsC9w, years_until_self]) (by norm_num)
  refine ⟨h.1.trans ?_, h.2.trans ?_⟩ <;> norm_num [inputsC9w]

/-- Claim C10: when `target_retire_age ≤ current_age`, the projection is
defined and its nest egg is exactly the sum of all current balances (the
horizon is 0, growth is the identity and the annuity contributes 0). -/
theorem c10_zero_horizon_project (inputs : Inputs)
    (h : inputs.target_retire_age ≤ inputs.current_age) :
    project inputs = some
      ⟨0, inputs.balances.total, inputs.balances.total,
        inputs.contributions.total⟩ := by
  have hy : years_until inputs.target_retire_age inputs.current_age = 0 := by
    unfold years_until
    exact Int.toNat_eq_zero.mpr (by omega)
  simp [project, hy, fv_annuity, grow_balance]

/-- Claim C10 witness: balances summing to 21 project to nest egg 21. -/
theorem c10_zero_horizon_project_witness :
    project inputsC10w = some ⟨0, 21, 21, 5⟩ := by
  rw [c10_zero_horizon_project inputsC10w (by norm_num [inputsC10w])]
  norm_num [inputsC10w, Balances.total, Contributions.total]
